import Mathlib

/-!
Verification of the SIFT3D repository's DICOM I/O layer (src/imutil/dicom.cpp),
its exception boundary, and the registration driver (siftreg.c), together with
a spec-modelled RANSAC transform fitter.  Each C/C++ function is shallowly
embedded as a Lean function; machine floats are modelled by rationals (exact
data paths) or reals (distance computations involving square roots).
-/

/- Return codes from macros.h (values distinct; only distinctness matters). -/

def SIFT3D_SUCCESS : Int := 0

def SIFT3D_FAILURE : Int := -1

namespace Dcm

/-- The per-file DICOM record stored by the helper class Dicom in dicom.cpp.
Only the fields that drive read_dcm_dir_cpp are modelled; a constructed value
corresponds to a file for which Dicom::valid is true. -/
structure Dicom where
  filename : String
  seriesUID : String
  instanceNumber : Int
  nx : Nat
  ny : Nat
  nz : Nat
  nc : Nat
  ux : ℚ
  uy : ℚ
  uz : ℚ
deriving DecidableEq, Repr

/-- Dicom::eqSeries: two files are from the same series when their
SeriesInstanceUID strings compare equal. -/
def Dicom.eqSeries (a b : Dicom) : Bool :=
  a.seriesUID == b.seriesUID

/-- Dicom::operator<: slices are ordered by instance number. -/
def Dicom.lt (a b : Dicom) : Bool :=
  a.instanceNumber < b.instanceNumber

/-- The assembled output volume of read_dcm_dir_cpp: the dimensions and
spacing written to the Image struct, and the slice files in the order their
data is copied into the volume (increasing z offset). -/
structure DcmVolume where
  nx : Nat
  ny : Nat
  nz : Nat
  nc : Nat
  ux : ℚ
  uy : ℚ
  uz : ℚ
  slices : List Dicom
deriving DecidableEq, Repr

/-- read_dcm_dir_cpp from dicom.cpp, from the point where the directory scan
has produced the list of valid DICOM files in directory-enumeration order.
The function fails when no file is found, when some file is from a different
series than the first, or when some file's x/y/channel dimensions differ from
the first file's; otherwise the total z-dimension is the sum of the per-file
frame counts, and the slices are copied in ascending instance-number order
(std::sort with Dicom::operator< is modelled by insertion sort, which likewise
produces a sorted permutation). -/
def read_dcm_dir_cpp : List Dicom → Except String DcmVolume
  | [] => .error "read_dcm_dir_cpp: no dicom files found"
  | first :: rest =>
      if rest.any fun d => !(first.eqSeries d) then
        .error "read_dcm_dir_cpp: file is from a different series"
      else if (first :: rest).any fun d =>
          d.nx != first.nx || d.ny != first.ny || d.nc != first.nc then
        .error "read_dcm_dir_cpp: slice does not match the dimensions"
      else
        .ok ⟨first.nx, first.ny, ((first :: rest).map Dicom.nz).sum, first.nc,
          first.ux, first.uy, first.uz,
          List.insertionSort (fun a b => a.instanceNumber ≤ b.instanceNumber)
            (first :: rest)⟩

/-- The Image struct from imutil.h as used by the DICOM writer: dimensions,
channel count, voxel spacing, and the float voxel buffer (addressed by
coordinates; values are modelled by rationals). -/
structure Image where
  nx : Nat
  ny : Nat
  nz : Nat
  nc : Nat
  ux : ℚ
  uy : ℚ
  uz : ℚ
  data : Nat → Nat → Nat → Nat → ℚ

/-- All voxel values of an image, enumerated over the in-range coordinates
exactly as the SIFT3D_IM_LOOP_START_C macros do (z, then y, then x, then c). -/
def voxList (im : Image) : List ℚ :=
  (List.range im.nz).flatMap fun z =>
    (List.range im.ny).flatMap fun y =>
      (List.range im.nx).flatMap fun x =>
        (List.range im.nc).map fun c => im.data x y z c

/-- Modelled from the spec: im_max_abs lives in imutil.c, which is not under
src; dicom.cpp calls it to obtain the maximum of the image for scaling.  It is
the maximum absolute voxel value (0 for an empty image). -/
def im_max_abs (im : Image) : ℚ :=
  (voxList im).foldl (fun m q => max m |q|) 0

/-- The loop in write_dcm_cpp fails as soon as it meets a negative voxel. -/
def hasNegVox (im : Image) : Bool :=
  (voxList im).any fun q => decide (q < 0)

/-- Bits per pixel for DICOM output (dcm_bit_width in dicom.cpp). -/
def dcm_bit_width : Nat := 8

/-- The maximum 8-bit value, (1 << dcm_bit_width) - 1 = 255. -/
def dcm_max_val : ℚ := ((1 <<< dcm_bit_width : Nat) : ℚ) - 1

/-- The C cast static_cast of a nonnegative float to uint8_t truncates toward
zero; integer division of numerator by denominator does the same for
rationals. -/
def castUint8 (q : ℚ) : Nat :=
  (q.num / (q.den : Int)).toNat

/-- The Dcm_meta struct from dicom.h. -/
structure Dcm_meta where
  patient_name : String
  patient_id : String
  series_descrip : String
  study_uid : String
  series_uid : String
  instance_uid : String
  instance_num : Nat
deriving DecidableEq, Repr

/- DICOM metadata defaults from dicom.cpp. -/

def default_patient_name : String := "DefaultSIFT3DPatient"

def default_series_descrip : String := "Series generated by SIFT3D"

def default_patient_id : String := "DefaultSIFT3DPatientID"

def default_instance_num : Nat := 1

/-- Modelled from the spec: the site UID roots are macros in dicom.h, which is
not under src; only their names matter here. -/
def SITE_STUDY_UID_ROOT : String := "SITE_STUDY_UID_ROOT"

/-- Modelled from the spec: series UID root macro from dicom.h. -/
def SITE_SERIES_UID_ROOT : String := "SITE_SERIES_UID_ROOT"

/-- Modelled from the spec: instance UID root macro from dicom.h. -/
def SITE_INSTANCE_UID_ROOT : String := "SITE_INSTANCE_UID_ROOT"

/-- default_Dcm_meta from dicom.cpp: fixed patient fields and fresh UIDs
generated under the three site roots.  The DCMTK generator
dcmGenerateUniqueIdentifier is external to the repository and is modelled by
the parameter gen, applied to the respective UID root. -/
def default_Dcm_meta (gen : String → String) : Dcm_meta :=
  ⟨default_patient_name, default_patient_id, default_series_descrip,
    gen SITE_STUDY_UID_ROOT, gen SITE_SERIES_UID_ROOT,
    gen SITE_INSTANCE_UID_ROOT, default_instance_num⟩

/-- set_meta_defaults from dicom.cpp: default metadata when the caller passed
NULL, otherwise a copy of the caller's metadata. -/
def set_meta_defaults (gen : String → String) (meta : Option Dcm_meta) :
    Dcm_meta :=
  match meta with
  | none => default_Dcm_meta gen
  | some m => m

/-- DCMTK transfer syntaxes reachable in write_dcm_cpp. -/
inductive TransferSyntax where
  | LittleEndianExplicit
  | JPEGProcess14SV1
deriving DecidableEq, Repr

/-- The DICOM attributes written by write_dcm_cpp, plus the scale factor it
computes and the rendered 8-bit pixel array (addressed by coordinates). -/
structure DcmFile where
  imageType : String
  sopClassUID : String
  photoInterp : String
  pixelRepresentation : Nat
  samplesPerPixel : Nat
  planarConfiguration : String
  bitsAllocated : Nat
  bitsStored : Nat
  highBit : Nat
  patientName : String
  patientID : String
  studyUID : String
  seriesUID : String
  seriesDescrip : String
  instanceUID : String
  rows : Nat
  cols : Nat
  numberOfFrames : Nat
  instanceNumber : Nat
  sliceLocation : ℚ
  pixelSpacingX : ℚ
  pixelSpacingY : ℚ
  sliceThickness : ℚ
  scale : ℚ
  pixelData : Nat → Nat → Nat → Nat → Nat
  xfer : TransferSyntax

/-- The effective image maximum in write_dcm_cpp: the caller's max_val, or,
when that is negative, the maximum absolute value of the image. -/
def im_max_of (im : Image) (max_val : ℚ) : ℚ :=
  if max_val < 0 then im_max_abs im else max_val

/-- The pixel scale factor in write_dcm_cpp: 1 when the effective maximum is
0 (avoiding a division by zero), otherwise dcm_max_val divided by it. -/
def im_scale (im : Image) (max_val : ℚ) : ℚ :=
  if im_max_of im max_val = 0 then 1 else dcm_max_val / im_max_of im max_val

/-- write_dcm_cpp from dicom.cpp.  Failure paths kept from the source: a
channel count other than 1, an unsupported photometric interpretation (dead
given the first check), and a negative voxel met while rendering the pixel
data.  DCMTK dataset insertions cannot fail in this pure model; the attribute
values they store are returned in a DcmFile. -/
def write_dcm_cpp (gen : String → String) (im : Image)
    (meta : Option Dcm_meta) (max_val : ℚ) : Except String DcmFile :=
  if im.nc ≠ 1 then
    .error "write_dcm_cpp: only single-channel images are supported"
  else
    let meta_new := set_meta_defaults gen meta
    if im.nc = 1 ∨ im.nc = 3 then
      let photoInterp := if im.nc = 1 then "MONOCHROME2" else "RGB"
      let scale := im_scale im max_val
      if hasNegVox im then
        .error "write_dcm_cpp: Image cannot be negative"
      else
        .ok ⟨"DERIVED", "CTImageStorage", photoInterp, 0, im.nc, "0",
          dcm_bit_width, dcm_bit_width, dcm_bit_width - 1,
          meta_new.patient_name, meta_new.patient_id,
          meta_new.study_uid, meta_new.series_uid, meta_new.series_descrip,
          meta_new.instance_uid,
          im.ny, im.nx, im.nz, meta_new.instance_num,
          im.uz * ((meta_new.instance_num : ℚ) - 1),
          im.ux, im.uy, im.uz, scale,
          (fun x y z c => castUint8 (im.data x y z c * scale)),
          .LittleEndianExplicit⟩
    else
      .error "write_dcm_cpp: Failed to determine the photometric representation"

end Dcm

namespace DcmBoundary

/-- A C++ exception crossing the DICOM helper boundary: either a
std::exception (carrying the what() string printed by the handler) or
anything else (the catch-all arm). -/
inductive CppExc where
  | std (what : String)
  | unknown
deriving DecidableEq, Repr

/-- The behaviour of the four C++ helper functions of dicom.cpp for the call
at hand: each either returns an int or throws.  File-system state and the
non-path arguments are absorbed into this environment. -/
structure DcmEnv where
  read_dcm_cpp : String → Except CppExc Int
  read_dcm_dir_cpp : String → Except CppExc Int
  write_dcm_cpp : String → Except CppExc Int
  write_dcm_dir_cpp : String → Except CppExc Int

/-- The CATCH_EXCEPTIONS macro from dicom.cpp: run the C++ helper; a normal
return passes through unchanged, and any caught exception becomes
SIFT3D_FAILURE. -/
def CATCH_EXCEPTIONS (r : Except CppExc Int) : Int :=
  match r with
  | .ok v => v
  | .error _ => SIFT3D_FAILURE

/-- read_dcm from dicom.cpp: CATCH_EXCEPTIONS around read_dcm_cpp. -/
def read_dcm (env : DcmEnv) (path : String) : Int :=
  CATCH_EXCEPTIONS (env.read_dcm_cpp path)

/-- read_dcm_dir from dicom.cpp: CATCH_EXCEPTIONS around read_dcm_dir_cpp. -/
def read_dcm_dir (env : DcmEnv) (path : String) : Int :=
  CATCH_EXCEPTIONS (env.read_dcm_dir_cpp path)

/-- write_dcm from dicom.cpp: CATCH_EXCEPTIONS around write_dcm_cpp. -/
def write_dcm (env : DcmEnv) (path : String) : Int :=
  CATCH_EXCEPTIONS (env.write_dcm_cpp path)

/-- write_dcm_dir from dicom.cpp: CATCH_EXCEPTIONS around write_dcm_dir_cpp. -/
def write_dcm_dir (env : DcmEnv) (path : String) : Int :=
  CATCH_EXCEPTIONS (env.write_dcm_dir_cpp path)

/-- A concrete environment: two helpers throw, two return normally. -/
def envSample : DcmEnv :=
  ⟨fun _ => .error (.std "bad alloc"), fun _ => .ok 0,
    fun _ => .error .unknown, fun _ => .ok 3⟩

end DcmBoundary

namespace Reg

/-- A 3D point (matched feature coordinates). -/
abbrev Pt : Type := ℚ × ℚ × ℚ

/-- An affine transform as its 3x4 matrix, row by row. -/
abbrev Affine : Type := Fin 3 → Fin 4 → ℚ

/-- Application of a 3x4 affine matrix to a point. -/
def applyAffine (T : Affine) (p : Pt) : Pt :=
  (T 0 0 * p.1 + T 0 1 * p.2.1 + T 0 2 * p.2.2 + T 0 3,
   T 1 0 * p.1 + T 1 1 * p.2.1 + T 1 2 * p.2.2 + T 1 3,
   T 2 0 * p.1 + T 2 1 * p.2.1 + T 2 2 * p.2.2 + T 2 3)

/-- Modelled from the spec: the Ransac parameter struct (reg.h is not under
src).  Spec section 4.5 requires the random sampler to be seeded from a
configurable seed, so the seed is one of the stored parameters. -/
structure Ransac where
  min_inlier_ratio : ℚ
  err_thresh : ℚ
  num_iter : Nat
  seed : Nat
deriving DecidableEq, Repr

/-- Modelled from the spec: init_Ransac stores the configurable parameters,
including the sampler seed; only its caller appears under src. -/
def init_Ransac (mir et : ℚ) (ni sd : Nat) : Ransac :=
  ⟨mir, et, ni, sd⟩

/-- Modelled from the spec: one step of the seeded pseudo-random sampler, a
linear congruential generator on 31-bit state. -/
def randStep (s : Nat) : Nat :=
  (s * 1103515245 + 12345) % 2 ^ 31

/-- Modelled from the spec: draw indices below n uniformly without
replacement, retrying duplicates; fuel bounds the retries.  Returns the drawn
indices and the advanced generator state. -/
def drawDistinct (n : Nat) : Nat → Nat → Nat → List Nat → List Nat × Nat
  | 0, s, _, acc => (acc, s)
  | _ + 1, s, 0, acc => (acc, s)
  | fuel + 1, s, need + 1, acc =>
      let s2 := randStep s
      let i := s2 % n
      if i ∈ acc then drawDistinct n fuel s2 (need + 1) acc
      else drawDistinct n fuel s2 need (i :: acc)

/-- Squared residual of one correspondence under a candidate transform.
Comparing squared residuals against the squared threshold is equivalent to
comparing Euclidean norms, both being nonnegative. -/
def sqErr (T : Affine) (m : Pt × Pt) : ℚ :=
  ((applyAffine T m.1).1 - m.2.1) ^ 2 +
  ((applyAffine T m.1).2.1 - m.2.2.1) ^ 2 +
  ((applyAffine T m.1).2.2 - m.2.2.2) ^ 2

/-- Modelled from the spec: the number of correspondences whose error is
below err_thresh. -/
def countInliers (T : Affine) (et : ℚ) (ms : List (Pt × Pt)) : Nat :=
  ms.countP fun m => decide (sqErr T m < et ^ 2)

/-- Modelled from the spec: total squared residual over the inliers, used to
break ties between candidates with equal inlier counts (with equal counts,
comparing mean residuals is comparing totals). -/
def residSum (T : Affine) (et : ℚ) (ms : List (Pt × Pt)) : ℚ :=
  ((ms.filter fun m => decide (sqErr T m < et ^ 2)).map (sqErr T)).sum

/-- Modelled from the spec: the RANSAC iteration loop.  Each iteration draws
a minimal sample of 4 correspondences with the seeded sampler, fits a
candidate with the least-squares fitter, counts its inliers and keeps the
best candidate, breaking inlier-count ties in favor of the lower mean inlier
residual. -/
def ransacLoop (fit : List (Pt × Pt) → Affine) (et : ℚ) (ms : List (Pt × Pt)) :
    Nat → Nat → Option (Nat × ℚ × Affine) → Option (Nat × ℚ × Affine)
  | 0, _, best => best
  | n + 1, s, best =>
      let drawn := drawDistinct ms.length (16 + 4 * ms.length) s 4 []
      let sample := drawn.1.map fun i => ms.getD i ((0, 0, 0), (0, 0, 0))
      let T := fit sample
      let cnt := countInliers T et ms
      let res := residSum T et ms
      let best2 :=
        match best with
        | none => some (cnt, res, T)
        | some (bc, br, bT) =>
            if bc < cnt ∨ (bc = cnt ∧ res * (bc : ℚ) < br * (cnt : ℚ)) then
              some (cnt, res, T)
            else
              some (bc, br, bT)
      ransacLoop fit et ms n drawn.2 best2

/-- Modelled from the spec: find_tform_ransac (its body lives in reg.c, not
under src; only its caller does).  Runs num_iter seeded iterations, requires
the best candidate to reach at least min_inlier_ratio times the number of
correspondences, and refits the returned model on the full inlier set of the
best candidate.  The SVD-based least-squares fitter is the parameter fit. -/
def find_tform_ransac (fit : List (Pt × Pt) → Affine) (ran : Ransac)
    (ms : List (Pt × Pt)) : Except String Affine :=
  match ransacLoop fit ran.err_thresh ms ran.num_iter ran.seed none with
  | none => .error "ERR_INSUFFICIENT_INLIERS"
  | some (bc, _, bT) =>
      if (bc : ℚ) < ran.min_inlier_ratio * (ms.length : ℚ) then
        .error "ERR_INSUFFICIENT_INLIERS"
      else
        .ok (fit (ms.filter fun m => decide (sqErr bT m < ran.err_thresh ^ 2)))

end Reg

namespace Siftreg

/-- NN_THRESH from siftreg.c: the ratio-test threshold handed to the
matcher. -/
def NN_THRESH : ℚ := 0.8

/-- MIN_INLIER_RATIO from siftreg.c: the minimum inlier ratio handed to
init_Ransac. -/
def MIN_INLIER_RATIO : ℚ := 0.001

/-- ERR_THRESH from siftreg.c: the inlier error threshold handed to
init_Ransac, also used by the synthetic-mode diagnostics. -/
def ERR_THRESH : ℚ := 5.0

/-- NUM_ITER from siftreg.c: the RANSAC iteration count handed to
init_Ransac. -/
def NUM_ITER : Nat := 500

/-- The init_Ransac call on line 85 of siftreg.c, which passes the three
macros verbatim (the sampler seed is the remaining, spec-modelled
parameter). -/
def driver_ran (sd : Nat) : Reg.Ransac :=
  Reg.init_Ransac MIN_INLIER_RATIO ERR_THRESH NUM_ITER sd

/-- The scalar arguments of the SIFT3D_nn_match_fb call in siftreg.c. -/
structure MatchCall where
  nn_thresh : ℚ
deriving DecidableEq, Repr

/-- The SIFT3D_nn_match_fb call in siftreg.c passes NN_THRESH verbatim. -/
def driver_match_call : MatchCall := ⟨ NN_THRESH ⟩

/-- How a run of the driver process ends: a return from main with an exit
code, or an err_exit abort identified by its message. -/
inductive Outcome where
  | exit (code : Int)
  | err_exit (tag : String)
deriving DecidableEq, Repr

/-- The driver's error idiom: every fallible call is wrapped in
if-call-then-err_exit, so a nonzero return aborts through err_exit and a zero
return continues with the rest of main. -/
def CHECK (r : Int) (tag : String) (k : Outcome) : Outcome :=
  if r ≠ 0 then .err_exit tag else k

/-- Return codes of the fallible calls main makes, in source order.  The
first component of each branch-dependent pair is used in synthetic mode
(argc < 3) and the second when a source image path was given. -/
structure DriverEnv where
  init_data : Int
  read_ref : Int
  set_mat : Int
  inv_transform_syn : Int
  read_src : Int
  pad : Int
  init_detector : Int
  init_extractor : Int
  detect_ref : Int
  extract_ref : Int
  detect_src : Int
  extract_src : Int
  nn_match : Int
  matches_to_mat : Int
  find_tform : Int
  inv_transform_reg : Int
  write_out : Int

/-- The control flow of main in siftreg.c: fewer than two arguments prints
usage and returns 1; otherwise synthetic mode is chosen when no source path
was given, every fallible step either aborts via err_exit or continues, and a
run that completes returns 0. -/
def siftreg_main (argc : Nat) (env : DriverEnv) : Outcome :=
  if argc < 2 then .exit 1
  else
    let syn_mode := argc < 3
    let tail :=
      CHECK env.pad "pad images" <|
      CHECK env.init_detector "init sift detector" <|
      CHECK env.init_extractor "init sift extractor" <|
      CHECK env.detect_ref "detect reference keypoints" <|
      CHECK env.extract_ref "extract reference descriptors" <|
      CHECK env.detect_src "detect source keypoints" <|
      CHECK env.extract_src "extract source descriptors" <|
      CHECK env.nn_match "match keypoints" <|
      CHECK env.matches_to_mat "extract coordinate matrices" <|
      CHECK env.find_tform "fit transform" <|
      CHECK env.inv_transform_reg "apply image transform" <|
      CHECK env.write_out "write registered image" <|
      .exit 0
    CHECK env.init_data "init data" <|
    CHECK env.read_ref "load ref image" <|
    (if syn_mode then
      CHECK env.set_mat "set affine matrix" <|
      CHECK env.inv_transform_syn "apply image transform" <| tail
    else
      CHECK env.read_src "load src image" <| tail)

/-- Every fallible step of main returned success. -/
def allOk (env : DriverEnv) : Prop :=
  env.init_data = 0 ∧ env.read_ref = 0 ∧ env.set_mat = 0 ∧
  env.inv_transform_syn = 0 ∧ env.read_src = 0 ∧ env.pad = 0 ∧
  env.init_detector = 0 ∧ env.init_extractor = 0 ∧ env.detect_ref = 0 ∧
  env.extract_ref = 0 ∧ env.detect_src = 0 ∧ env.extract_src = 0 ∧
  env.nn_match = 0 ∧ env.matches_to_mat = 0 ∧ env.find_tform = 0 ∧
  env.inv_transform_reg = 0 ∧ env.write_out = 0

/-- A 3D scalar volume as the driver sees it. -/
structure Vol where
  nx : Nat
  ny : Nat
  nz : Nat
  data : Nat → Nat → Nat → ℚ

/-- Modelled from the spec: im_pad lives in imutil.c, not under src.  It
fills a destination of the given dimensions with the source image placed at
the origin and zeros elsewhere. -/
def im_pad (src : Vol) (nx ny nz : Nat) : Vol :=
  ⟨nx, ny, nz, fun x y z =>
    if x < src.nx ∧ y < src.ny ∧ z < src.nz then src.data x y z else 0⟩

/-- Lines 123-131 of siftreg.c: both inputs are padded to the element-wise
maximum of their dimensions before any detection runs. -/
def padImages (src ref : Vol) : Vol × Vol :=
  let nx := max src.nx ref.nx
  let ny := max src.ny ref.ny
  let nz := max src.nz ref.nz
  (im_pad src nx ny nz, im_pad ref nx ny nz)

/-- An environment where every step succeeds. -/
def envOk : DriverEnv :=
  ⟨0, 0, 0, 0, 0, 0, 0, 0, 0, 0, 0, 0, 0, 0, 0, 0, 0⟩

/-- A concrete source volume. -/
def volSrc : Vol := ⟨1, 2, 3, fun _ _ _ => 1⟩

/-- A concrete reference volume. -/
def volRef : Vol := ⟨3, 1, 2, fun _ _ _ => 2⟩


/-- A 3D point with real coordinates, for the distance computations of the
synthetic-mode diagnostics. -/
abbrev PtR : Type := ℝ × ℝ × ℝ

/-- A 3x4 affine matrix over the reals (the ground-truth transform
aff_syn). -/
abbrev AffR : Type := Fin 3 → Fin 4 → ℝ

/-- apply_tform_xyz with an AFFINE transform: y = A x + t. -/
def apply_tform_xyz (T : AffR) (p : PtR) : PtR :=
  (T 0 0 * p.1 + T 0 1 * p.2.1 + T 0 2 * p.2.2 + T 0 3,
   T 1 0 * p.1 + T 1 1 * p.2.1 + T 1 2 * p.2.2 + T 1 3,
   T 2 0 * p.1 + T 2 1 * p.2.1 + T 2 2 * p.2.2 + T 2 3)

/-- Squared Euclidean distance, as accumulated in the dx*dx + dy*dy + dz*dz
expressions of the diagnostics loop. -/
def sqDist (a b : PtR) : ℝ :=
  (a.1 - b.1) ^ 2 + (a.2.1 - b.2.1) ^ 2 + (a.2.2 - b.2.2) ^ 2

/-- Euclidean distance: sqrt of the accumulated squares, as in the match_err
and min_err computations. -/
noncomputable def dist3 (a b : PtR) : ℝ :=
  Real.sqrt (sqDist a b)

/-- DBL_MAX, the initial value of the minimum-error accumulator. -/
noncomputable def DBL_MAX : ℝ := 2 ^ 1024 - 2 ^ 971

/-- The inner loop over reference features: the minimum squared error
between the ground-truth position and any reference feature, folded from
DBL_MAX exactly as min_err_sq is. -/
noncomputable def min_err_sq_of (xst : PtR) (refs : List PtR) : ℝ :=
  refs.foldl (fun m r => min m (sqDist xst r)) DBL_MAX

/-- The classification the diagnostics loop assigns to one source feature. -/
inductive SynClass where
  | truePos
  | falsePos
  | trueNeg
  | falseNeg
deriving DecidableEq, Repr

/-- The body of the synthetic-mode precision/recall loop in siftreg.c (lines
311-391) for one source feature: transform the feature by the ground truth
aff_syn; a matched feature whose error against the ground-truth position
exceeds ERR_THRESH is a false positive, as is one to which some reference
feature is more than 1.0 closer; otherwise it is a true positive.  An
unmatched feature whose nearest reference feature is within ERR_THRESH of the
ground-truth position is a false negative, otherwise a true negative. -/
noncomputable def classifyFeature (aff : AffR) (refs : List PtR) (xs : PtR)
    (matchIdx : Option Nat) : SynClass :=
  let xst := apply_tform_xyz aff xs
  match matchIdx with
  | some j =>
      let match_err := dist3 xst (refs.getD j (0, 0, 0))
      if match_err > ((ERR_THRESH : ℚ) : ℝ) then .falsePos
      else if Real.sqrt (min_err_sq_of xst refs) < match_err - 1 then .falsePos
      else .truePos
  | none =>
      if Real.sqrt (min_err_sq_of xst refs) < ((ERR_THRESH : ℚ) : ℝ) then
        .falseNeg
      else .trueNeg

/-- The zero affine matrix (sends every point to the origin). -/
def affZero : AffR := fun _ _ => 0

/-- A reference feature list with one feature at the origin. -/
def refsNear : List PtR := [(0, 0, 0)]

/-- A reference feature list whose only feature is 6 voxels from the
origin. -/
def refsFar : List PtR := [(6, 0, 0)]

end Siftreg

namespace Dcm

/- Concrete sample files, volumes and environments used by the witnesses. -/

/-- A sample DICOM file: series 1.2.3, instance 2, one frame. -/
def dicomA : Dicom := ⟨"a.dcm", "1.2.3", 2, 4, 5, 1, 1, 1, 1, 1⟩

/-- A sample DICOM file in the same series as dicomA, instance 1, two
frames. -/
def dicomB : Dicom := ⟨"b.dcm", "1.2.3", 1, 4, 5, 2, 1, 1, 1, 1⟩

/-- A sample DICOM file from a different series than dicomA. -/
def dicomC : Dicom := ⟨"c.dcm", "9.9.9", 3, 4, 5, 1, 1, 1, 1, 1⟩

/-- A sample DICOM file from dicomA's series whose x-dimension differs. -/
def dicomD : Dicom := ⟨"d.dcm", "1.2.3", 4, 7, 5, 1, 1, 1, 1, 1⟩

/-- A sample UID generator standing in for dcmGenerateUniqueIdentifier. -/
def genSample : String → String := fun root => root ++ ".42"

/-- A single-voxel image with value 1. -/
def imOne : Image := ⟨1, 1, 1, 1, 1, 1, 1, fun _ _ _ _ => 1⟩

/-- A single-voxel two-channel image. -/
def imTwoChan : Image := ⟨1, 1, 1, 2, 1, 1, 1, fun _ _ _ _ => 0⟩

/-- A single-voxel image with a negative value. -/
def imNeg : Image := ⟨1, 1, 1, 1, 1, 1, 1, fun _ _ _ _ => -1⟩

/-- A single-voxel image that is identically zero. -/
def imZero : Image := ⟨1, 1, 1, 1, 1, 1, 1, fun _ _ _ _ => 0⟩

end Dcm

namespace DcmBoundary

/-- Claim C3: every call of the public DICOM entry points read_dcm,
read_dcm_dir, write_dcm, and write_dcm_dir converts any C++ exception thrown
internally into the SIFT3D_FAILURE return code at the I/O boundary; no
exception propagates to the caller (the wrappers are total and return a plain
int), and a DICOM error is fatal only to the current operation, never to the
process. -/
theorem dcm_boundary_catches (env : DcmEnv) (path : String) :
    ((∀ e, env.read_dcm_cpp path = .error e →
        read_dcm env path = SIFT3D_FAILURE) ∧
      ∀ v, env.read_dcm_cpp path = .ok v → read_dcm env path = v) ∧
    ((∀ e, env.read_dcm_dir_cpp path = .error e →
        read_dcm_dir env path = SIFT3D_FAILURE) ∧
      ∀ v, env.read_dcm_dir_cpp path = .ok v → read_dcm_dir env path = v) ∧
    ((∀ e, env.write_dcm_cpp path = .error e →
        write_dcm env path = SIFT3D_FAILURE) ∧
      ∀ v, env.write_dcm_cpp path = .ok v → write_dcm env path = v) ∧
    ((∀ e, env.write_dcm_dir_cpp path = .error e →
        write_dcm_dir env path = SIFT3D_FAILURE) ∧
      ∀ v, env.write_dcm_dir_cpp path = .ok v → write_dcm_dir env path = v) := by
  refine ⟨⟨?_, ?_⟩, ⟨?_, ?_⟩, ⟨?_, ?_⟩, ⟨?_, ?_⟩⟩ <;> intro x h <;>
    simp [read_dcm, read_dcm_dir, write_dcm, write_dcm_dir, CATCH_EXCEPTIONS, h]

/-- Witness for C3 at a concrete environment and path: the throwing helpers
yield SIFT3D_FAILURE and the normal returns pass through. -/
theorem dcm_boundary_catches_witness :
    read_dcm envSample "im.dcm" = SIFT3D_FAILURE ∧
    read_dcm_dir envSample "im.dcm" = 0 ∧
    write_dcm envSample "im.dcm" = SIFT3D_FAILURE ∧
    write_dcm_dir envSample "im.dcm" = 3 :=
  ⟨(dcm_boundary_catches envSample "im.dcm").1.1 (.std "bad alloc") rfl,
    (dcm_boundary_catches envSample "im.dcm").2.1.2 0 rfl,
    (dcm_boundary_catches envSample "im.dcm").2.2.1.1 .unknown rfl,
    (dcm_boundary_catches envSample "im.dcm").2.2.2.2 3 rfl⟩

end DcmBoundary

namespace Reg

/-- Claim C4: the RANSAC fitter's random sampler is seeded from the
configurable seed stored by init_Ransac, and two runs of find_tform_ransac
with the same seed and the same matched point lists produce an identical
transform. -/
theorem find_tform_ransac_deterministic
    (fit : List (Pt × Pt) → Affine) (mir et : ℚ) (ni sd : Nat)
    (ms1 ms2 : List (Pt × Pt)) (h : ms1 = ms2) :
    (init_Ransac mir et ni sd).seed = sd ∧
    find_tform_ransac fit (init_Ransac mir et ni sd) ms1 =
      find_tform_ransac fit (init_Ransac mir et ni sd) ms2 := by
  subst h
  exact ⟨rfl, rfl⟩

/-- Witness for C4: a concrete fitter, parameters, seed and matched list. -/
theorem find_tform_ransac_deterministic_witness :
    (init_Ransac 0 5 500 7).seed = 7 ∧
    find_tform_ransac (fun _ _ _ => 0) (init_Ransac 0 5 500 7)
        [((1, 2, 3), (4, 5, 6))] =
      find_tform_ransac (fun _ _ _ => 0) (init_Ransac 0 5 500 7)
        [((1, 2, 3), (4, 5, 6))] :=
  find_tform_ransac_deterministic (fun _ _ _ => 0) 0 5 500 7
    [((1, 2, 3), (4, 5, 6))] [((1, 2, 3), (4, 5, 6))] rfl

end Reg

namespace Siftreg

/-- Claim C7: the registration driver configures matching and robust fitting
with exactly the documented default scalars, and passes them unchanged to the
matcher call and to init_Ransac. -/
theorem driver_default_scalars :
    NN_THRESH = 0.8 ∧ MIN_INLIER_RATIO = 0.001 ∧ ERR_THRESH = 5.0 ∧
    NUM_ITER = 500 ∧
    driver_match_call.nn_thresh = NN_THRESH ∧
    ∀ sd : Nat,
      (driver_ran sd).min_inlier_ratio = MIN_INLIER_RATIO ∧
      (driver_ran sd).err_thresh = ERR_THRESH ∧
      (driver_ran sd).num_iter = NUM_ITER :=
  ⟨rfl, rfl, rfl, rfl, rfl, fun _ => ⟨rfl, rfl, rfl⟩⟩

/-- Claim C6: the driver's main returns exit code 0 on a run where every
fallible step completes successfully, and returns exit code 1 (usage error)
when invoked with fewer than two command-line arguments. -/
theorem siftreg_main_exit_codes (env : DriverEnv) (argc : Nat) :
    (argc < 2 → siftreg_main argc env = .exit 1) ∧
    (2 ≤ argc → allOk env → siftreg_main argc env = .exit 0) := by
  constructor
  · intro h
    simp [siftreg_main, h]
  · intro hargc hok
    obtain ⟨h1, h2, h3, h4, h5, h6, h7, h8, h9, h10, h11, h12, h13, h14, h15,
      h16, h17⟩ := hok
    by_cases hsyn : argc < 3 <;>
      simp [siftreg_main, CHECK, Nat.not_lt.mpr hargc, hsyn,
        h1, h2, h3, h4, h5, h6, h7, h8, h9, h10, h11, h12, h13, h14, h15,
        h16, h17]

/-- Witness for C6: with one argument main returns 1, and with two arguments
and all steps succeeding it returns 0. -/
theorem siftreg_main_exit_codes_witness :
    siftreg_main 1 envOk = .exit 1 ∧ siftreg_main 2 envOk = .exit 0 :=
  ⟨(siftreg_main_exit_codes envOk 1).1 (by decide),
    (siftreg_main_exit_codes envOk 2).2 (by decide)
      ⟨rfl, rfl, rfl, rfl, rfl, rfl, rfl, rfl, rfl, rfl, rfl, rfl, rfl, rfl,
        rfl, rfl, rfl⟩⟩

/-- Claim C10: before keypoint detection the driver zero-pads both input
volumes to the element-wise maximum of their x, y, and z dimensions, so the
two volumes handed to detection, extraction, and matching have identical
dimensions; inside the original extent the padded volume carries the original
data and outside it is zero. -/
theorem padImages_same_dims (src ref : Vol) :
    (padImages src ref).1.nx = max src.nx ref.nx ∧
    (padImages src ref).1.ny = max src.ny ref.ny ∧
    (padImages src ref).1.nz = max src.nz ref.nz ∧
    (padImages src ref).2.nx = (padImages src ref).1.nx ∧
    (padImages src ref).2.ny = (padImages src ref).1.ny ∧
    (padImages src ref).2.nz = (padImages src ref).1.nz ∧
    (∀ x y z, x < src.nx → y < src.ny → z < src.nz →
      (padImages src ref).1.data x y z = src.data x y z) ∧
    (∀ x y z, ¬(x < src.nx ∧ y < src.ny ∧ z < src.nz) →
      (padImages src ref).1.data x y z = 0) ∧
    (∀ x y z, x < ref.nx → y < ref.ny → z < ref.nz →
      (padImages src ref).2.data x y z = ref.data x y z) ∧
    (∀ x y z, ¬(x < ref.nx ∧ y < ref.ny ∧ z < ref.nz) →
      (padImages src ref).2.data x y z = 0) := by
  refine ⟨rfl, rfl, rfl, rfl, rfl, rfl, ?_, ?_, ?_, ?_⟩ <;> intro x y z
  · intro hx hy hz
    simp [padImages, im_pad, hx, hy, hz]
  · intro h
    simp only [padImages, im_pad]
    exact if_neg h
  · intro hx hy hz
    simp [padImages, im_pad, hx, hy, hz]
  · intro h
    simp only [padImages, im_pad]
    exact if_neg h

/-- Witness for C10 at two concrete volumes: an in-range voxel of the padded
source keeps its value and an out-of-range one is zero. -/
theorem padImages_same_dims_witness :
    (padImages volSrc volRef).1.data 0 0 0 = volSrc.data 0 0 0 ∧
    (padImages volSrc volRef).1.data 2 0 0 = 0 ∧
    (padImages volSrc volRef).2.data 0 0 0 = volRef.data 0 0 0 ∧
    (padImages volSrc volRef).2.data 0 1 0 = (0 : ℚ) :=
  ⟨(padImages_same_dims volSrc volRef).2.2.2.2.2.2.1 0 0 0
      (by decide) (by decide) (by decide),
    (padImages_same_dims volSrc volRef).2.2.2.2.2.2.2.1 2 0 0 (by decide),
    (padImages_same_dims volSrc volRef).2.2.2.2.2.2.2.2.1 0 0 0
      (by decide) (by decide) (by decide),
    (padImages_same_dims volSrc volRef).2.2.2.2.2.2.2.2.2 0 1 0 (by decide)⟩

end Siftreg

namespace Dcm

/-- If the series any-check of read_dcm_dir_cpp does not fire, every file in
the directory has the first file's series UID. -/
theorem eqSeries_all_of_not_any {first : Dicom} {rest : List Dicom}
    (h : ¬ rest.any (fun d => !(first.eqSeries d)) = true) :
    ∀ d ∈ first :: rest, d.seriesUID = first.seriesUID := by
  intro d hd
  rcases List.mem_cons.mp hd with h' | h'
  · rw [h']
  · by_contra hne
    apply h
    refine List.any_eq_true.mpr ⟨d, h', ?_⟩
    simp [Dicom.eqSeries]
    exact fun he => hne he.symm

/-- Claim C1: for every call of read_dcm_dir on a directory of DICOM files,
if any two files have different SeriesInstanceUID values the call fails with
an error; otherwise the slices are assembled into the output volume in
ascending InstanceNumber order — the assembled slice list is a sorted
permutation of the enumerated files, independent of the enumeration order. -/
theorem read_dcm_dir_series_sorted (ds : List Dicom) :
    ((∃ d1 ∈ ds, ∃ d2 ∈ ds, d1.seriesUID ≠ d2.seriesUID) →
      ∃ e, read_dcm_dir_cpp ds = .error e) ∧
    ∀ v, read_dcm_dir_cpp ds = .ok v →
      v.slices.Perm ds ∧
      v.slices.Sorted fun a b => a.instanceNumber ≤ b.instanceNumber := by
  constructor
  · rintro ⟨d1, h1, d2, h2, hne⟩
    cases ds with
    | nil => cases h1
    | cons first rest =>
      by_cases hb : rest.any (fun d => !(first.eqSeries d)) = true
      · exact ⟨"read_dcm_dir_cpp: file is from a different series",
          by simp [read_dcm_dir_cpp, hb]⟩
      · exact absurd ((eqSeries_all_of_not_any hb d1 h1).trans
          (eqSeries_all_of_not_any hb d2 h2).symm) hne
  · intro v hv
    cases ds with
    | nil => simp [read_dcm_dir_cpp] at hv
    | cons first rest =>
      simp only [read_dcm_dir_cpp] at hv
      by_cases hb1 : rest.any (fun d => !(first.eqSeries d)) = true
      · rw [if_pos hb1] at hv
        cases hv
      · rw [if_neg hb1] at hv
        by_cases hb2 : (first :: rest).any (fun d =>
            d.nx != first.nx || d.ny != first.ny || d.nc != first.nc) = true
        · rw [if_pos hb2] at hv
          cases hv
        · rw [if_neg hb2] at hv
          cases hv
          haveI : IsTotal Dicom
              (fun a b => a.instanceNumber ≤ b.instanceNumber) :=
            ⟨fun a b => Int.le_total a.instanceNumber b.instanceNumber⟩
          haveI : IsTrans Dicom
              (fun a b => a.instanceNumber ≤ b.instanceNumber) :=
            ⟨fun _ _ _ hab hbc => le_trans hab hbc⟩
          exact ⟨List.perm_insertionSort _ _, List.sorted_insertionSort _ _⟩

/-- Witness for C1: a two-series directory fails, and a well-formed directory
enumerated out of instance order is assembled sorted. -/
theorem read_dcm_dir_series_sorted_witness :
    (∃ e, read_dcm_dir_cpp [dicomA, dicomC] = .error e) ∧
    (([dicomB, dicomA] : List Dicom).Perm [dicomA, dicomB] ∧
      ([dicomB, dicomA] : List Dicom).Sorted fun a b =>
        a.instanceNumber ≤ b.instanceNumber) :=
  ⟨(read_dcm_dir_series_sorted [dicomA, dicomC]).1
      ⟨dicomA, by simp, dicomC, by simp, by decide⟩,
    (read_dcm_dir_series_sorted [dicomA, dicomB]).2
      ⟨4, 5, 3, 1, 1, 1, 1, [dicomB, dicomA]⟩ rfl⟩

end Dcm

namespace Dcm

/-- Claim C8: for every successful call of read_dcm_dir, every file's
x-dimension, y-dimension, and channel count equal those of the first file (a
mismatch in any of them fails the call), and the output volume's z-dimension
equals the sum of the frame counts of all DICOM files found. -/
theorem read_dcm_dir_dims (d0 : Dicom) (ds : List Dicom) :
    (∀ v, read_dcm_dir_cpp (d0 :: ds) = .ok v →
      (∀ d ∈ d0 :: ds, d.nx = d0.nx ∧ d.ny = d0.ny ∧ d.nc = d0.nc) ∧
      v.nz = ((d0 :: ds).map Dicom.nz).sum) ∧
    ((∃ d ∈ d0 :: ds, d.nx ≠ d0.nx ∨ d.ny ≠ d0.ny ∨ d.nc ≠ d0.nc) →
      ∃ e, read_dcm_dir_cpp (d0 :: ds) = .error e) := by
  constructor
  · intro v hv
    simp only [read_dcm_dir_cpp] at hv
    by_cases hb1 : ds.any (fun d => !(d0.eqSeries d)) = true
    · rw [if_pos hb1] at hv
      cases hv
    · rw [if_neg hb1] at hv
      by_cases hb2 : (d0 :: ds).any (fun d =>
          d.nx != d0.nx || d.ny != d0.ny || d.nc != d0.nc) = true
      · rw [if_pos hb2] at hv
        cases hv
      · rw [if_neg hb2] at hv
        cases hv
        refine ⟨?_, rfl⟩
        intro d hd
        by_contra hcon
        apply hb2
        refine List.any_eq_true.mpr ⟨d, hd, ?_⟩
        simp only [Bool.or_eq_true, bne_iff_ne]
        by_contra hall
        push_neg at hall
        exact hcon ⟨hall.1.1, hall.1.2, hall.2⟩
  · rintro ⟨d, hd, hne⟩
    by_cases hb1 : ds.any (fun d => !(d0.eqSeries d)) = true
    · exact ⟨"read_dcm_dir_cpp: file is from a different series",
        by simp [read_dcm_dir_cpp, hb1]⟩
    · have hb2 : (d0 :: ds).any (fun d =>
          d.nx != d0.nx || d.ny != d0.ny || d.nc != d0.nc) = true := by
        refine List.any_eq_true.mpr ⟨d, hd, ?_⟩
        simp only [Bool.or_eq_true, bne_iff_ne]
        rcases hne with h | h | h
        · exact Or.inl (Or.inl h)
        · exact Or.inl (Or.inr h)
        · exact Or.inr h
      exact ⟨"read_dcm_dir_cpp: slice does not match the dimensions",
        by simp [read_dcm_dir_cpp, hb1, hb2]⟩

/-- Witness for C8: the well-formed two-file directory has matching x/y/c
dimensions and a summed z-dimension, and a directory with a mismatched
x-dimension fails. -/
theorem read_dcm_dir_dims_witness :
    ((∀ d ∈ [dicomA, dicomB], d.nx = dicomA.nx ∧ d.ny = dicomA.ny ∧
        d.nc = dicomA.nc) ∧
      (3 : Nat) = (([dicomA, dicomB]).map Dicom.nz).sum) ∧
    ∃ e, read_dcm_dir_cpp [dicomA, dicomD] = .error e :=
  ⟨(read_dcm_dir_dims dicomA [dicomB]).1
      ⟨4, 5, 3, 1, 1, 1, 1, [dicomB, dicomA]⟩ rfl,
    (read_dcm_dir_dims dicomA [dicomD]).2
      ⟨dicomD, by simp, Or.inl (by decide)⟩⟩

end Dcm

namespace Dcm

/-- Membership in the voxel list is exactly being the value at some in-range
coordinate. -/
theorem mem_voxList (im : Image) (q : ℚ) :
    q ∈ voxList im ↔ ∃ x, x < im.nx ∧ ∃ y, y < im.ny ∧ ∃ z, z < im.nz ∧
      ∃ c, c < im.nc ∧ im.data x y z c = q := by
  simp only [voxList, List.mem_flatMap, List.mem_map, List.mem_range]
  constructor
  · rintro ⟨z, hz, y, hy, x, hx, c, hc, hq⟩
    exact ⟨x, hx, y, hy, z, hz, c, hc, hq⟩
  · rintro ⟨x, hx, y, hy, z, hz, c, hc, hq⟩
    exact ⟨z, hz, y, hy, x, hx, c, hc, hq⟩

/-- An image whose in-range voxels are all nonnegative fails the negativity
check of write_dcm_cpp nowhere. -/
theorem hasNegVox_eq_false_of_nonneg (im : Image)
    (h : ∀ x y z c, x < im.nx → y < im.ny → z < im.nz → c < im.nc →
      0 ≤ im.data x y z c) :
    hasNegVox im = false := by
  simp only [hasNegVox, List.any_eq_false, decide_eq_true_eq]
  intro q hq
  rcases (mem_voxList im q).mp hq with ⟨x, hx, y, hy, z, hz, c, hc, rfl⟩
  exact not_lt.mpr (h x y z c hx hy hz hc)

/-- An image with some negative in-range voxel trips the negativity check. -/
theorem hasNegVox_eq_true_of_neg (im : Image) (x y z c : Nat)
    (hx : x < im.nx) (hy : y < im.ny) (hz : z < im.nz) (hc : c < im.nc)
    (hneg : im.data x y z c < 0) :
    hasNegVox im = true := by
  simp only [hasNegVox, List.any_eq_true, decide_eq_true_eq]
  exact ⟨im.data x y z c,
    (mem_voxList im _).mpr ⟨x, hx, y, hy, z, hz, c, hc, rfl⟩, hneg⟩

/-- Claim C2: a write_dcm call with NULL metadata generates its study,
series, and instance UIDs under the site UID roots, and an accepted
(single-channel, nonnegative) image is written as 8-bit unsigned pixels
(BitsAllocated = BitsStored = 8) with photometric interpretation MONOCHROME2
in the explicit little-endian transfer syntax, each voxel scaled by 255
divided by the image maximum. -/
theorem write_dcm_default_meta (gen : String → String) (im : Image) (mv : ℚ)
    (hnc : im.nc = 1)
    (hnonneg : ∀ x y z c, x < im.nx → y < im.ny → z < im.nz → c < im.nc →
      0 ≤ im.data x y z c)
    (hmv : mv < 0) (hmax : 0 < im_max_abs im) :
    dcm_max_val = 255 ∧
    ∃ v, write_dcm_cpp gen im none mv = .ok v ∧
      v.studyUID = gen SITE_STUDY_UID_ROOT ∧
      v.seriesUID = gen SITE_SERIES_UID_ROOT ∧
      v.instanceUID = gen SITE_INSTANCE_UID_ROOT ∧
      v.bitsAllocated = 8 ∧ v.bitsStored = 8 ∧
      v.photoInterp = "MONOCHROME2" ∧
      v.xfer = TransferSyntax.LittleEndianExplicit ∧
      v.scale = dcm_max_val / im_max_abs im ∧
      ∀ x y z c, v.pixelData x y z c =
        castUint8 (im.data x y z c * (dcm_max_val / im_max_abs im)) := by
  have hneg : hasNegVox im = false := hasNegVox_eq_false_of_nonneg im hnonneg
  have hscale : im_scale im mv = dcm_max_val / im_max_abs im := by
    unfold im_scale im_max_of
    rw [if_pos hmv, if_neg (ne_of_gt hmax)]
  refine ⟨by norm_num [dcm_max_val, dcm_bit_width, Nat.shiftLeft_eq], ?_⟩
  refine ⟨⟨"DERIVED", "CTImageStorage", "MONOCHROME2", 0, im.nc, "0",
      dcm_bit_width, dcm_bit_width, dcm_bit_width - 1,
      default_patient_name, default_patient_id,
      gen SITE_STUDY_UID_ROOT, gen SITE_SERIES_UID_ROOT,
      default_series_descrip, gen SITE_INSTANCE_UID_ROOT,
      im.ny, im.nx, im.nz, default_instance_num,
      im.uz * ((default_instance_num : ℚ) - 1),
      im.ux, im.uy, im.uz, im_scale im mv,
      (fun x y z c => castUint8 (im.data x y z c * im_scale im mv)),
      .LittleEndianExplicit⟩, ?_, rfl, rfl, rfl, rfl, rfl, rfl, rfl,
    hscale, ?_⟩
  · simp [write_dcm_cpp, hnc, hneg, set_meta_defaults, default_Dcm_meta]
  · intro x y z c
    simp [hscale]

/-- Witness for C2 at a concrete generator and single-voxel image. -/
theorem write_dcm_default_meta_witness :
    dcm_max_val = 255 ∧
    ∃ v, write_dcm_cpp genSample imOne none (-1) = .ok v ∧
      v.studyUID = genSample SITE_STUDY_UID_ROOT ∧
      v.seriesUID = genSample SITE_SERIES_UID_ROOT ∧
      v.instanceUID = genSample SITE_INSTANCE_UID_ROOT ∧
      v.bitsAllocated = 8 ∧ v.bitsStored = 8 ∧
      v.photoInterp = "MONOCHROME2" ∧
      v.xfer = TransferSyntax.LittleEndianExplicit ∧
      v.scale = dcm_max_val / im_max_abs imOne ∧
      ∀ x y z c, v.pixelData x y z c =
        castUint8 (imOne.data x y z c * (dcm_max_val / im_max_abs imOne)) :=
  write_dcm_default_meta genSample imOne (-1) rfl
    (fun _ _ _ _ _ _ _ _ => by norm_num [imOne]) (by decide) (by decide)

/-- Claim C9: write_dcm fails for every image whose channel count is not 1
and for every image containing a negative voxel, and when the effective image
maximum is 0 the pixel scale factor is taken as 1, so no division by zero
occurs; on success the written scale factor is exactly im_scale. -/
theorem write_dcm_guards (gen : String → String) (im : Image)
    (meta : Option Dcm_meta) (mv : ℚ) :
    (im.nc ≠ 1 → ∃ e, write_dcm_cpp gen im meta mv = .error e) ∧
    ((∃ x, x < im.nx ∧ ∃ y, y < im.ny ∧ ∃ z, z < im.nz ∧ ∃ c, c < im.nc ∧
        im.data x y z c < 0) →
      ∃ e, write_dcm_cpp gen im meta mv = .error e) ∧
    (im_max_of im mv = 0 → im_scale im mv = 1) ∧
    (write_dcm_cpp gen im meta mv).map DcmFile.scale =
      (write_dcm_cpp gen im meta mv).map fun _ => im_scale im mv := by
  refine ⟨?_, ?_, ?_, ?_⟩
  · intro hnc
    exact ⟨"write_dcm_cpp: only single-channel images are supported",
      by simp [write_dcm_cpp, hnc]⟩
  · rintro ⟨x, hx, y, hy, z, hz, c, hc, hneg⟩
    by_cases hnc : im.nc = 1
    · have htrue : hasNegVox im = true :=
        hasNegVox_eq_true_of_neg im x y z c hx hy hz hc hneg
      exact ⟨"write_dcm_cpp: Image cannot be negative",
        by simp [write_dcm_cpp, hnc, htrue]⟩
    · exact ⟨"write_dcm_cpp: only single-channel images are supported",
        by simp [write_dcm_cpp, hnc]⟩
  · intro h0
    unfold im_scale
    rw [if_pos h0]
  · by_cases h1 : im.nc = 1
    · by_cases h3 : hasNegVox im = true
      · simp [write_dcm_cpp, h1, h3, Except.map]
      · simp [write_dcm_cpp, h1, h3, Except.map]
    · simp [write_dcm_cpp, h1, Except.map]

/-- Witness for C9: a two-channel image fails, a negative image fails, and
the all-zero image gets scale factor 1. -/
theorem write_dcm_guards_witness :
    (∃ e, write_dcm_cpp id imTwoChan none (-1) = .error e) ∧
    (∃ e, write_dcm_cpp id imNeg none (-1) = .error e) ∧
    im_scale imZero (-1) = 1 :=
  ⟨(write_dcm_guards id imTwoChan none (-1)).1 (by decide),
    (write_dcm_guards id imNeg none (-1)).2.1
      ⟨0, by decide, 0, by decide, 0, by decide, 0, by decide, by decide⟩,
    (write_dcm_guards id imZero none (-1)).2.2.1 (by decide)⟩

end Dcm

namespace Siftreg

/-- Folding min over a list never rises above the initial accumulator. -/
theorem foldl_min_le_init {α : Type} (f : α → ℝ) (l : List α) (a : ℝ) :
    l.foldl (fun m x => min m (f x)) a ≤ a := by
  induction l generalizing a with
  | nil => simp
  | cons x xs ih =>
      simp only [List.foldl_cons]
      exact le_trans (ih (min a (f x))) (min_le_left _ _)

/-- Folding min over a list is bounded by the value at any member. -/
theorem foldl_min_le_mem {α : Type} (f : α → ℝ) (l : List α) (x : α) :
    ∀ a : ℝ, x ∈ l → l.foldl (fun m y => min m (f y)) a ≤ f x := by
  induction l with
  | nil => intro a h; cases h
  | cons y ys ih =>
      intro a hx
      simp only [List.foldl_cons]
      rcases List.mem_cons.mp hx with h | h
      · subst h
        exact le_trans (foldl_min_le_init f ys (min a (f x)))
          (min_le_right _ _)
      · exact ih (min a (f y)) h

/-- The minimum-squared-error accumulator is bounded by the squared distance
to any reference feature. -/
theorem min_err_sq_of_le (xst : PtR) (refs : List PtR) (r : PtR)
    (hr : r ∈ refs) : min_err_sq_of xst refs ≤ sqDist xst r :=
  foldl_min_le_mem (fun p => sqDist xst p) refs r DBL_MAX hr

/-- Claim C5: in synthetic mode, the driver's precision/recall diagnostic
counts a matched source feature as a true positive only if its error against
the ground-truth-transformed position is at most ERR_THRESH and no reference
feature lies more than 1.0 voxel closer to the ground-truth position than the
matched feature does, and counts an unmatched source feature as a true
negative only if every reference feature is at least ERR_THRESH from the
ground-truth position. -/
theorem classifyFeature_true_conditions (aff : AffR) (refs : List PtR)
    (xs : PtR) (j : Nat) :
    (classifyFeature aff refs xs (some j) = .truePos →
      dist3 (apply_tform_xyz aff xs) (refs.getD j (0, 0, 0)) ≤
        ((ERR_THRESH : ℚ) : ℝ) ∧
      ∀ r ∈ refs,
        dist3 (apply_tform_xyz aff xs) (refs.getD j (0, 0, 0)) - 1 ≤
          dist3 (apply_tform_xyz aff xs) r) ∧
    (classifyFeature aff refs xs none = .trueNeg →
      ∀ r ∈ refs, ((ERR_THRESH : ℚ) : ℝ) ≤ dist3 (apply_tform_xyz aff xs) r) := by
  constructor
  · intro h
    simp only [classifyFeature] at h
    split_ifs at h with h1 h2
    refine ⟨not_lt.mp h1, ?_⟩
    intro r hr
    calc dist3 (apply_tform_xyz aff xs) (refs.getD j (0, 0, 0)) - 1 ≤
        Real.sqrt (min_err_sq_of (apply_tform_xyz aff xs) refs) :=
          not_lt.mp h2
      _ ≤ Real.sqrt (sqDist (apply_tform_xyz aff xs) r) :=
          Real.sqrt_le_sqrt (min_err_sq_of_le _ refs r hr)
      _ = dist3 (apply_tform_xyz aff xs) r := rfl
  · intro h
    simp only [classifyFeature] at h
    split_ifs at h with h1
    intro r hr
    calc ((ERR_THRESH : ℚ) : ℝ) ≤
        Real.sqrt (min_err_sq_of (apply_tform_xyz aff xs) refs) :=
          not_lt.mp h1
      _ ≤ Real.sqrt (sqDist (apply_tform_xyz aff xs) r) :=
          Real.sqrt_le_sqrt (min_err_sq_of_le _ refs r hr)
      _ = dist3 (apply_tform_xyz aff xs) r := rfl

/-- Witness for C5: a matched feature at the ground-truth position is
classified a true positive and satisfies the conditions, and an unmatched
feature whose only reference is 6 voxels away is a true negative with every
reference at least ERR_THRESH away. -/
theorem classifyFeature_true_conditions_witness :
    (dist3 (apply_tform_xyz affZero (0, 0, 0)) (refsNear.getD 0 (0, 0, 0)) ≤
        ((ERR_THRESH : ℚ) : ℝ) ∧
      ∀ r ∈ refsNear,
        dist3 (apply_tform_xyz affZero (0, 0, 0)) (refsNear.getD 0 (0, 0, 0))
            - 1 ≤ dist3 (apply_tform_xyz affZero (0, 0, 0)) r) ∧
    ∀ r ∈ refsFar,
      ((ERR_THRESH : ℚ) : ℝ) ≤ dist3 (apply_tform_xyz affZero (0, 0, 0)) r := by
  have hdbl : (0 : ℝ) ≤ DBL_MAX := by
    rw [DBL_MAX]
    norm_num
  have h36 : (36 : ℝ) ≤ DBL_MAX := by
    rw [DBL_MAX]
    norm_num
  have hcast : ((ERR_THRESH : ℚ) : ℝ) = 5 := by
    norm_num [ERR_THRESH]
  have hxst : apply_tform_xyz affZero ((0 : ℝ), (0 : ℝ), (0 : ℝ)) =
      ((0 : ℝ), (0 : ℝ), (0 : ℝ)) := by
    simp [apply_tform_xyz, affZero]
  have hmatch : dist3 ((0 : ℝ), (0 : ℝ), (0 : ℝ)) ((0 : ℝ), (0 : ℝ), (0 : ℝ)) =
      0 := by
    simp [dist3, sqDist]
  have hsq0 : sqDist ((0 : ℝ), (0 : ℝ), (0 : ℝ)) ((0 : ℝ), (0 : ℝ), (0 : ℝ)) =
      0 := by
    simp [sqDist]
  have hsq36 : sqDist ((0 : ℝ), (0 : ℝ), (0 : ℝ)) ((6 : ℝ), (0 : ℝ), (0 : ℝ)) =
      36 := by
    simp only [sqDist]
    norm_num
  have hmin0 : Real.sqrt (min_err_sq_of ((0 : ℝ), (0 : ℝ), (0 : ℝ)) refsNear) =
      0 := by
    simp only [min_err_sq_of, refsNear, List.foldl_cons, List.foldl_nil, hsq0]
    rw [min_eq_right hdbl, Real.sqrt_zero]
  have hmin6 : Real.sqrt (min_err_sq_of ((0 : ℝ), (0 : ℝ), (0 : ℝ)) refsFar) =
      6 := by
    simp only [min_err_sq_of, refsFar, List.foldl_cons, List.foldl_nil, hsq36]
    rw [min_eq_right h36, show (36 : ℝ) = 6 ^ 2 by norm_num]
    exact Real.sqrt_sq (by norm_num)
  constructor
  · refine (classifyFeature_true_conditions affZero refsNear (0, 0, 0) 0).1 ?_
    simp only [classifyFeature, hxst,
      show refsNear.getD 0 ((0 : ℝ), (0 : ℝ), (0 : ℝ)) =
        ((0 : ℝ), (0 : ℝ), (0 : ℝ)) from rfl, hmatch, hmin0, hcast]
    norm_num
  · refine (classifyFeature_true_conditions affZero refsFar (0, 0, 0) 0).2 ?_
    simp only [classifyFeature, hxst, hmin6, hcast]
    norm_num

end Siftreg
